import Mathlib

set_option maxRecDepth 100000

/-!
Verification development for the wallet-policy parser of `src/src/common/wallet.c`
(Ledger Bitcoin application, policy-map wallets).

The C code is shallowly embedded: the input byte cursor (`buffer_t`) becomes a
`List Char` (for textual inputs) or `List Nat` (for binary inputs) of the bytes
still to be read; every reading primitive returns the value read together with
the remaining input, and failure is `none` (the C code collapses every failure
to the return value `-1`, with only debug strings distinguishing them, except
for `read_policy_map_wallet` which returns distinct codes `-1 .. -10`, kept
here in an `Except Int`).

The target is a 32-bit platform: `size_t` is 32 bits wide (the C code passes a
`uint32_t *` where a `size_t *` is expected in `buffer_read_derivation_step`,
which only compiles on such a target), so unsigned arithmetic on `size_t` is
modelled as `Nat` arithmetic modulo `SIZE_T_MOD = 2 ^ 32`.

The arena allocator (`buffer_alloc` on `out_buf`) is modelled as unbounded: the
tree is produced as an inductive value and the out-of-memory paths of the C
code are not represented.  No claim below concerns arena exhaustion.
-/

namespace WalletC

/-- Wrap-around modulus of the 32-bit `size_t` of the target platform. -/
def SIZE_T_MOD : Nat := 2 ^ 32

/-! ### Character classes (`is_digit`, `is_alpha`, ... in wallet.c) -/

def is_digit (c : Char) : Bool := 48 ≤ c.toNat && c.toNat ≤ 57

def is_alpha (c : Char) : Bool :=
  (97 ≤ c.toNat && c.toNat ≤ 122) || (65 ≤ c.toNat && c.toNat ≤ 90)

def is_alphanumeric (c : Char) : Bool := is_alpha c || is_digit c

def is_lowercase_hex (c : Char) : Bool :=
  is_digit c || (97 ≤ c.toNat && c.toNat ≤ 102)

def lowercase_hex_to_int (c : Char) : Nat :=
  if is_digit c then c.toNat - 48 else c.toNat - 97 + 10

/-- Embedding of `consume_character`: the next character must be `expected`;
on success the cursor advances past it. -/
def consume_character (input : List Char) (expected : Char) : Option (List Char) :=
  match input with
  | c :: rest => if c = expected then some rest else none
  | [] => none

/-! ### `parse_unsigned_decimal` -/

/-- Loop of `parse_unsigned_decimal`: returns the accumulated result, the
number of digits read and the remaining input.  `result` lives in `size_t`,
so `10 * result + next_digit` wraps modulo `SIZE_T_MOD`, and the overflow
check compares the wrapped value with the previous `result`. -/
def parse_unsigned_decimal_go : List Char → Nat → Nat → Option (Nat × Nat × List Char)
  | [], result, digits_read => some (result, digits_read, [])
  | c :: rest, result, digits_read =>
    if is_digit c then
      let digits_read1 := digits_read + 1
      let next_digit := c.toNat - 48
      if digits_read1 = 2 ∧ result = 0 then none
      else if (10 * result + next_digit) % SIZE_T_MOD < result then none
      else parse_unsigned_decimal_go rest ((10 * result + next_digit) % SIZE_T_MOD) digits_read1
    else some (result, digits_read, c :: rest)

/-- Embedding of `parse_unsigned_decimal`: leading zeros rejected (`0` alone is
fine), at least one digit required, accumulation in `size_t`. -/
def parse_unsigned_decimal (input : List Char) : Option (Nat × List Char) :=
  match parse_unsigned_decimal_go input 0 0 with
  | none => none
  | some (result, digits_read, rest) =>
    if digits_read = 0 then none else some (result, rest)

/-! ### `buffer_read_hex_hash` -/

/-- Embedding of `buffer_read_hex_hash` without its up-front `buffer_can_read`
length test (performed by `buffer_read_hex_hash` below): reads `n` byte pairs. -/
def read_hex_pairs : List Char → Nat → Option (List Nat × List Char)
  | input, 0 => some ([], input)
  | c1 :: c2 :: rest, n + 1 =>
    if is_lowercase_hex c1 && is_lowercase_hex c2 then
      match read_hex_pairs rest n with
      | some (bytes, r) => some ((16 * lowercase_hex_to_int c1 + lowercase_hex_to_int c2) :: bytes, r)
      | none => none
    else none
  | _, _ + 1 => none

/-- Embedding of `buffer_read_hex_hash`: exactly `2 * n` lowercase hexadecimal
characters yielding `n` bytes. -/
def buffer_read_hex_hash (input : List Char) (n : Nat) : Option (List Nat × List Char) :=
  if 2 * n ≤ input.length then read_hex_pairs input n else none

/-! ### BIP32 derivation steps and `parse_policy_map_key_info` -/

/-- Hardened-bit mask of BIP32 (external constant of the spec). -/
def BIP32_FIRST_HARDENED_CHILD : Nat := 2 ^ 31

/-- Modelled from the spec: `MAX_BIP32_PATH_STEPS` is declared in the missing
header `wallet.h`; the spec states the maximum is 8 steps. -/
def MAX_BIP32_PATH_STEPS : Nat := 8

/-- Modelled from the spec: `MAX_SERIALIZED_PUBKEY_LENGTH` is declared in the
missing header `wallet.h`; the spec states serialized extended public keys are
111 or 112 characters, so the read bound is 112. -/
def MAX_SERIALIZED_PUBKEY_LENGTH : Nat := 112

/-- Embedding of `buffer_read_derivation_step`: a decimal strictly below the
hardened bit, optionally followed by an apostrophe setting the hardened bit. -/
def buffer_read_derivation_step (input : List Char) : Option (Nat × List Char) :=
  match parse_unsigned_decimal input with
  | none => none
  | some (d, rest) =>
    if BIP32_FIRST_HARDENED_CHILD ≤ d then none
    else
      match consume_character rest (Char.ofNat 39) with
      | some r => some (d + BIP32_FIRST_HARDENED_CHILD, r)
      | none => some (d, rest)

/-- Derivation-step loop of `parse_policy_map_key_info`: while a `/` is
consumed, first test `master_key_derivation_len > MAX_BIP32_PATH_STEPS` and
then read one step.  `len` is the number of steps already stored.  `fuel`
bounds the iteration count (each iteration consumes at least two characters,
so `input.length + 1` is always enough). -/
def key_origin_steps (fuel : Nat) (input : List Char) (len : Nat) :
    Option (List Nat × List Char) :=
  match fuel with
  | 0 => none
  | fuel + 1 =>
    match consume_character input '/' with
    | none => some ([], input)
    | some rest =>
      if len > MAX_BIP32_PATH_STEPS then none
      else
        match buffer_read_derivation_step rest with
        | none => none
        | some (step, rest2) =>
          match key_origin_steps fuel rest2 (len + 1) with
          | none => none
          | some (steps, r) => some (step :: steps, r)

/-- Result record of `parse_policy_map_key_info` (fields of
`policy_map_key_info_t`). -/
structure policy_map_key_info where
  has_key_origin : Bool
  master_key_fingerprint : List Nat
  master_key_derivation : List Nat
  ext_pubkey : List Char
  has_wildcard : Bool
deriving DecidableEq

/-- Maximal run of alphanumeric characters, at most `n` long (the
`ext_pubkey` reading loop of `parse_policy_map_key_info`). -/
def take_alnum : Nat → List Char → List Char × List Char
  | 0, input => ([], input)
  | _ + 1, [] => ([], [])
  | n + 1, c :: rest =>
    if is_alphanumeric c then
      let (w, r) := take_alnum n rest
      (c :: w, r)
    else ([], c :: rest)

/-- Tail of `parse_policy_map_key_info` after the optional origin block:
extended public key of 111 or 112 alphanumeric characters, then either the
exact suffix `/**` (wildcard) or end of input. -/
def key_info_pubkey_tail (input : List Char) (ho : Bool) (fp steps : List Nat) :
    Option policy_map_key_info :=
  let pk_rest := take_alnum MAX_SERIALIZED_PUBKEY_LENGTH input
  let pk := pk_rest.1
  if pk.length < 111 ∨ pk.length > 112 then none
  else
    match pk_rest.2 with
    | [] =>
      some { has_key_origin := ho, master_key_fingerprint := fp,
             master_key_derivation := steps, ext_pubkey := pk, has_wildcard := false }
    | c1 :: c2 :: c3 :: rest2 =>
      if rest2 = [] ∧ c1 = '/' ∧ c2 = '*' ∧ c3 = '*' then
        some { has_key_origin := ho, master_key_fingerprint := fp,
               master_key_derivation := steps, ext_pubkey := pk, has_wildcard := true }
      else none
    | _ => none

/-- Embedding of `parse_policy_map_key_info`. -/
def parse_policy_map_key_info (input : List Char) : Option policy_map_key_info :=
  match consume_character input '[' with
  | some rest =>
    if rest.length < 9 then none
    else
      match read_hex_pairs rest 4 with
      | none => none
      | some (fp, rest2) =>
        match key_origin_steps (rest2.length + 1) rest2 0 with
        | none => none
        | some (steps, rest3) =>
          match consume_character rest3 ']' with
          | none => none
          | some rest4 => key_info_pubkey_tail rest4 true fp steps
  | none => key_info_pubkey_tail input false [] []

/-! ### Binary buffer primitives and `read_policy_map_wallet`

The byte-buffer primitives live in the out-of-scope `buffer.c`; they are
modelled from the spec (section 4.1) on a `List Nat` of the unread bytes. -/

/-- Modelled from the spec: `buffer_read_u8` of the byte-cursor component. -/
def buffer_read_u8 : List Nat → Option (Nat × List Nat)
  | [] => none
  | b :: rest => some (b, rest)

/-- Modelled from the spec: `buffer_read_bytes` of the byte-cursor component. -/
def buffer_read_bytes (input : List Nat) (n : Nat) : Option (List Nat × List Nat) :=
  if n ≤ input.length then some (input.take n, input.drop n) else none

/-- Value of a little-endian byte list. -/
def le_bytes_to_nat : List Nat → Nat
  | [] => 0
  | b :: rest => b + 256 * le_bytes_to_nat rest

/-- Modelled from the spec: `buffer_read_varint`, Bitcoin-style: one byte, or
prefix `0xFD`, `0xFE`, `0xFF` followed by 2, 4 or 8 little-endian bytes. -/
def buffer_read_varint : List Nat → Option (Nat × List Nat)
  | [] => none
  | b :: rest =>
    if b < 253 then some (b, rest)
    else
      match buffer_read_bytes rest (if b = 253 then 2 else if b = 254 then 4 else 8) with
      | some (bs, r) => some (le_bytes_to_nat bs, r)
      | none => none

/-- Modelled from the spec: policy-map wallet discriminant byte
(`WALLET_TYPE_POLICY_MAP` of the missing header), value 2. -/
def WALLET_TYPE_POLICY_MAP : Nat := 2

/-- Modelled from the spec: `MAX_WALLET_NAME_LENGTH` of the missing header, 64. -/
def MAX_WALLET_NAME_LENGTH : Nat := 64

/-- Modelled from the spec: `MAX_POLICY_MAP_STR_LENGTH` of the missing header, 74. -/
def MAX_POLICY_MAP_STR_LENGTH : Nat := 74

/-- Fields of `policy_map_wallet_header_t` populated by
`read_policy_map_wallet` (`type` is renamed `wtype`). -/
structure policy_map_wallet_header where
  wtype : Nat
  name : List Nat
  policy_map : List Nat
  n_keys : Nat
  keys_info_merkle_root : List Nat
deriving DecidableEq

/-- Embedding of `read_policy_map_wallet`, with the distinct error codes of the
C function.  The remaining input is returned alongside the header: the C
function leaves the cursor wherever the last read put it and performs no
exhaustion check.  The `(uint16_t)` truncation of `policy_map_len` happens
before the length check, as in the C code. -/
def read_policy_map_wallet (input : List Nat) :
    Except Int (policy_map_wallet_header × List Nat) :=
  match buffer_read_u8 input with
  | none => .error (-1)
  | some (wtype, r1) =>
    if wtype ≠ WALLET_TYPE_POLICY_MAP then .error (-2)
    else
      match buffer_read_u8 r1 with
      | none => .error (-3)
      | some (name_len, r2) =>
        if name_len > MAX_WALLET_NAME_LENGTH then .error (-4)
        else
          match buffer_read_bytes r2 name_len with
          | none => .error (-5)
          | some (name, r3) =>
            match buffer_read_varint r3 with
            | none => .error (-6)
            | some (pml, r4) =>
              -- the (uint16_t) truncation of policy_map_len happens before
              -- the length check, as in the C code
              if pml % 65536 > MAX_POLICY_MAP_STR_LENGTH then .error (-7)
              else
                match buffer_read_bytes r4 (pml % 65536) with
                | none => .error (-8)
                | some (pm, r5) =>
                  match buffer_read_varint r5 with
                  | none => .error (-9)
                  | some (nk, r6) =>
                    if nk > 252 then .error (-9)
                    else
                      match buffer_read_bytes r6 32 with
                      | none => .error (-10)
                      | some (root, r7) =>
                        .ok ({ wtype := wtype, name := name, policy_map := pm,
                               n_keys := nk % 65536, keys_info_merkle_root := root }, r7)

/-! ### Policy nodes, miniscript types and modifier flags -/

/-- Miniscript base types (`MINISCRIPT_TYPE_B/V/K/W`). -/
inductive MiniType | B | V | K | W
deriving DecidableEq

/-- Flags of a policy node: either not miniscript (in which case the C code
leaves the type and modifier bits uninitialised and never reads them), or a
miniscript type together with the z, o, n, d, u modifier bits. -/
inductive NodeFlags
  | nonMini
  | mini (ty : MiniType) (z o n d u : Bool)
deriving DecidableEq

/-- The ten wrapper fragments `a, s, c, t, d, v, j, n, l, u`
(`TOKEN_A .. TOKEN_U`). -/
inductive Wrapper | A | S | C | T | D | V | J | N | L | U
deriving DecidableEq

/-- Policy tree produced by `parse_script`.  Children owned through arena
pointers in C become inductive children here; the `thresh` script list and the
`multi`/`sortedmulti` key-index array become lists. -/
inductive PNode where
  | const0
  | const1
  | sh (inner : PNode)
  | wsh (inner : PNode)
  | pk (key_index : Nat)
  | pkh (key_index : Nat)
  | pk_k (key_index : Nat)
  | pk_h (key_index : Nat)
  | wpkh (key_index : Nat)
  | tr (key_index : Nat)
  | older (n : Nat)
  | after (n : Nat)
  | sha256 (h : List Nat)
  | hash256 (h : List Nat)
  | ripemd160 (h : List Nat)
  | hash160 (h : List Nat)
  | andor (x y z : PNode)
  | and_v (x y : PNode)
  | and_b (x y : PNode)
  | and_n (x y : PNode)
  | or_b (x y : PNode)
  | or_c (x y : PNode)
  | or_d (x y : PNode)
  | or_i (x y : PNode)
  | thresh (k : Nat) (scripts : List PNode)
  | multi (k : Nat) (key_indexes : List Nat)
  | sortedmulti (k : Nat) (key_indexes : List Nat)
  | wrap (w : Wrapper) (inner : PNode)

/-- Token kinds of `PolicyNodeType` returned by `parse_token` (wrapper tokens
excluded: they are produced by the wrapper-run scanner, not by `parse_token`). -/
inductive Token
  | SH | WSH | PKH | WPKH | MULTI | SORTEDMULTI | TR
  | T0 | T1 | PK | PK_K | PK_H | OLDER | AFTER
  | SHA256 | HASH256 | RIPEMD160 | HASH160
  | ANDOR | AND_V | AND_B | AND_N | OR_B | OR_C | OR_D | OR_I | THRESH
  | INVALID
deriving DecidableEq

/-- Flag rule of the `andor(X, Y, Z)` case: X is B with d and u; Y and Z have
the same type, which is B, K or V.  A non-miniscript child fails (the
`is_miniscript` test of the C code). -/
def andor_flags : NodeFlags → NodeFlags → NodeFlags → Option NodeFlags
  | .mini tx zx ox _ dx ux, .mini ty zy oy _ _ uy, .mini tz zz oz _ dz uz =>
    if tx ≠ MiniType.B ∨ dx = false ∨ ux = false then none
    else if ty ≠ tz then none
    else if ty = MiniType.W then none
    else some (.mini ty (zx && zy && zz) ((zx && oy && oz) || (ox && zy && zz)) false dz (uy && uz))
  | _, _, _ => none

/-- Flag rule of `and_v(X, Y)`: X is V; Y is B, K or V. -/
def and_v_flags : NodeFlags → NodeFlags → Option NodeFlags
  | .mini tx zx ox nx _ _, .mini ty zy oy ny _ uy =>
    if tx ≠ MiniType.V then none
    else if ty = MiniType.W then none
    else some (.mini ty (zx && zy) ((zx && oy) || (ox && zy)) (nx || (zx && ny)) false uy)
  | _, _ => none

/-- Flag rule of `and_b(X, Y)`: X is B; Y is W. -/
def and_b_flags : NodeFlags → NodeFlags → Option NodeFlags
  | .mini tx zx ox nx dx _, .mini ty zy oy ny dy uy =>
    if tx ≠ MiniType.B ∨ ty ≠ MiniType.W then none
    else some (.mini MiniType.B (zx && zy) ((zx && oy) || (ox && zy))
               (nx || (zx && ny)) (dx && dy) uy)
  | _, _ => none

/-- Flag rule of `and_n(X, Y)`: X is B with d and u; Y is B. -/
def and_n_flags : NodeFlags → NodeFlags → Option NodeFlags
  | .mini tx zx ox _ dx ux, .mini ty zy _ _ _ uy =>
    if tx ≠ MiniType.B ∨ dx = false ∨ ux = false then none
    else if ty ≠ MiniType.B then none
    else some (.mini MiniType.B (zx && zy) (ox && zy) false true uy)
  | _, _ => none

/-- Flag rule of `or_b(X, Z)`: X is B with d; Z is W with d. -/
def or_b_flags : NodeFlags → NodeFlags → Option NodeFlags
  | .mini tx zx ox _ dx _, .mini tz zz oz _ dz _ =>
    if tx ≠ MiniType.B ∨ dx = false then none
    else if tz ≠ MiniType.W ∨ dz = false then none
    else some (.mini MiniType.B (zx && zz) ((zx && oz) || (ox && zz)) false true true)
  | _, _ => none

/-- Flag rule of `or_c(X, Z)`: X is B with d and u; Z is V. -/
def or_c_flags : NodeFlags → NodeFlags → Option NodeFlags
  | .mini tx zx ox _ dx ux, .mini tz zz oz _ _ _ =>
    if tx ≠ MiniType.B ∨ dx = false ∨ ux = false then none
    else if tz ≠ MiniType.V then none
    else some (.mini MiniType.V (zx && zz) (ox && oz) false false false)
  | _, _ => none

/-- Flag rule of `or_d(X, Z)`: X is B with d and u; Z is B. -/
def or_d_flags : NodeFlags → NodeFlags → Option NodeFlags
  | .mini tx zx ox _ dx ux, .mini tz zz oz _ dz uz =>
    if tx ≠ MiniType.B ∨ dx = false ∨ ux = false then none
    else if tz ≠ MiniType.B then none
    else some (.mini MiniType.B (zx && zz) (ox && oz) false dz uz)
  | _, _ => none

/-- Flag rule of `or_i(X, Z)`: X and Z have the same type, which is B, K or V. -/
def or_i_flags : NodeFlags → NodeFlags → Option NodeFlags
  | .mini tx zx _ _ dx ux, .mini tz zz _ _ dz uz =>
    if tx = MiniType.W then none
    else if tx ≠ tz then none
    else some (.mini tx false (zx && zz) false (dx || dz) (ux && uz))
  | _, _ => none

/-- Flag rule of one wrapper applied to a child with flags `cf` (the big
`switch` over `TOKEN_A .. TOKEN_U` of `parse_script`).  A non-miniscript child
fails (the `is_miniscript` test that precedes the switch). -/
def apply_wrapper (w : Wrapper) (cf : NodeFlags) : Option NodeFlags :=
  match cf with
  | .nonMini => none
  | .mini ty z o n d u =>
    match w with
    | .A => if ty = MiniType.B then some (.mini MiniType.W false false false d u) else none
    | .S => if ty = MiniType.B ∧ o = true then some (.mini MiniType.W false false false d u) else none
    | .C => if ty = MiniType.K then some (.mini MiniType.B false o n d true) else none
    | .T => if ty = MiniType.V then some (.mini MiniType.B z o n false true) else none
    | .D => if ty = MiniType.V ∧ z = true then some (.mini MiniType.B false true true true false) else none
    | .V => if ty = MiniType.B then some (.mini MiniType.V z o n false false) else none
    | .J => if ty = MiniType.B ∧ n = true then some (.mini MiniType.B false o true true u) else none
    | .N => if ty = MiniType.B then some (.mini MiniType.B z o n d true) else none
    | .L => if ty = MiniType.B then some (.mini MiniType.B false z false true u) else none
    | .U => if ty = MiniType.B then some (.mini MiniType.B false z false true u) else none

/-- Application of a wrapper chain `ws` (outermost first) around a parsed body:
the C code links the `script` pointer of each wrapper node to the next node
inward and that of the innermost wrapper to the body, then computes flags from
the innermost wrapper outward. -/
def apply_wrappers : List Wrapper → PNode → NodeFlags → Option (PNode × NodeFlags)
  | [], body, bf => some (body, bf)
  | w :: rest, body, bf =>
    match apply_wrappers rest body bf with
    | none => none
    | some (inner, inner_flags) =>
      match apply_wrapper w inner_flags with
      | none => none
      | some f => some (.wrap w inner, f)

/-! ### Tokenizer (`read_token`, `parse_token`) -/

/-- Length of the longest keyword, `sortedmulti` (`MAX_TOKEN_LENGTH`). -/
def MAX_TOKEN_LENGTH : Nat := 11

def is_token_char (c : Char) : Bool := is_alphanumeric c || c = '_'

/-- Embedding of `read_token`: maximal run of `[A-Za-z0-9_]`, at most `n`
characters long; returns the word and the remaining input. -/
def read_token : Nat → List Char → List Char × List Char
  | 0, input => ([], input)
  | _ + 1, [] => ([], [])
  | n + 1, c :: rest =>
    if is_token_char c then
      let (w, r) := read_token n rest
      (c :: w, r)
    else ([], c :: rest)

/-- The `KNOWN_TOKENS` table, in source order. -/
def KNOWN_TOKENS : List (Token × List Char) :=
  [ (Token.SH, ['s', 'h']),
    (Token.WSH, ['w', 's', 'h']),
    (Token.PKH, ['p', 'k', 'h']),
    (Token.WPKH, ['w', 'p', 'k', 'h']),
    (Token.MULTI, ['m', 'u', 'l', 't', 'i']),
    (Token.SORTEDMULTI, ['s', 'o', 'r', 't', 'e', 'd', 'm', 'u', 'l', 't', 'i']),
    (Token.TR, ['t', 'r']),
    (Token.T0, ['0']),
    (Token.T1, ['1']),
    (Token.PK, ['p', 'k']),
    (Token.PK_K, ['p', 'k', '_', 'k']),
    (Token.PK_H, ['p', 'k', '_', 'h']),
    (Token.OLDER, ['o', 'l', 'd', 'e', 'r']),
    (Token.AFTER, ['a', 'f', 't', 'e', 'r']),
    (Token.SHA256, ['s', 'h', 'a', '2', '5', '6']),
    (Token.HASH256, ['h', 'a', 's', 'h', '2', '5', '6']),
    (Token.RIPEMD160, ['r', 'i', 'p', 'e', 'm', 'd', '1', '6', '0']),
    (Token.HASH160, ['h', 'a', 's', 'h', '1', '6', '0']),
    (Token.ANDOR, ['a', 'n', 'd', 'o', 'r']),
    (Token.AND_V, ['a', 'n', 'd', '_', 'v']),
    (Token.AND_B, ['a', 'n', 'd', '_', 'b']),
    (Token.AND_N, ['a', 'n', 'd', '_', 'n']),
    (Token.OR_B, ['o', 'r', '_', 'b']),
    (Token.OR_C, ['o', 'r', '_', 'c']),
    (Token.OR_D, ['o', 'r', '_', 'd']),
    (Token.OR_I, ['o', 'r', '_', 'i']),
    (Token.THRESH, ['t', 'h', 'r', 'e', 's', 'h']) ]

/-- Linear scan of `KNOWN_TOKENS` (the `strncmp` loop: both strings are at most
`MAX_TOKEN_LENGTH` long and NUL-terminated, so the comparison is full string
equality). -/
def lookup_token : List (Token × List Char) → List Char → Token
  | [], _ => Token.INVALID
  | (t, name) :: tl, w => if name = w then t else lookup_token tl w

/-- Embedding of `parse_token`. -/
def parse_token (input : List Char) : Token × List Char :=
  let (w, rest) := read_token MAX_TOKEN_LENGTH input
  (lookup_token KNOWN_TOKENS w, rest)

/-! ### `parse_script` -/

/-- Context flag set when parsing a direct child of `sh` (`CONTEXT_WITHIN_SH`). -/
def CONTEXT_WITHIN_SH : Nat := 1

/-- Context flag set when parsing a direct child of `wsh` (`CONTEXT_WITHIN_WSH`). -/
def CONTEXT_WITHIN_WSH : Nat := 2

/-- Modelled from the spec: `MAX_POLICY_MAP_COSIGNERS` is declared in the
missing header `wallet.h`; the spec states the cosigner limit is 16. -/
def MAX_POLICY_MAP_COSIGNERS : Nat := 16

/-- Embedding of the `is_valid_miniscript_wrapper` table, combined with the
`a ≤ c ≤ z` guard of the scanning loop. -/
def is_valid_miniscript_wrapper (c : Char) : Bool :=
  c = 'a' || c = 'c' || c = 'd' || c = 'j' || c = 'l' || c = 'n' ||
  c = 's' || c = 't' || c = 'u' || c = 'v'

/-- Length of the maximal leading run of valid wrapper characters
(the `buffer_peek_n` look-ahead loop of `parse_script`). -/
def count_wrapper_run : List Char → Nat
  | [] => 0
  | c :: rest => if is_valid_miniscript_wrapper c then count_wrapper_run rest + 1 else 0

/-- The wrapper-prefix decision of `parse_script`: if the character after the
wrapper run is a colon, the run (possibly empty) is consumed together with the
colon; otherwise nothing is consumed. -/
def wrapper_split (input : List Char) : List Char × List Char :=
  let k := count_wrapper_run input
  match input.drop k with
  | c :: _ => if c = ':' then (input.take k, input.drop (k + 1)) else ([], input)
  | [] => ([], input)

/-- The wrapper-letter `switch` of `parse_script` (its `default` branch, which
is unreachable after the scan, maps to `none`). -/
def char_to_wrapper (c : Char) : Option Wrapper :=
  if c = 'a' then some Wrapper.A
  else if c = 's' then some Wrapper.S
  else if c = 'c' then some Wrapper.C
  else if c = 't' then some Wrapper.T
  else if c = 'd' then some Wrapper.D
  else if c = 'v' then some Wrapper.V
  else if c = 'j' then some Wrapper.J
  else if c = 'n' then some Wrapper.N
  else if c = 'l' then some Wrapper.L
  else if c = 'u' then some Wrapper.U
  else none

/-- Embedding of `parse_key_index`: an `@` followed by an unsigned decimal.
The C function returns the index as a `size_t` and every call site converts it
to `int` and treats `-1` as failure, so the value `SIZE_T_MOD - 1` is
indistinguishable from an error. -/
def parse_key_index (input : List Char) : Option (Nat × List Char) :=
  match input with
  | c :: rest =>
    if c = '@' then
      match parse_unsigned_decimal rest with
      | some (k, r) => if k = SIZE_T_MOD - 1 then none else some (k, r)
      | none => none
    else none
  | [] => none

/-- The `sortedmulti` context test of `parse_script`: it rejects exactly when
both `CONTEXT_WITHIN_SH` and `CONTEXT_WITHIN_WSH` are set (source uses `&&`). -/
def sortedmulti_context_forbidden (ctx : Nat) : Bool :=
  (Nat.land ctx CONTEXT_WITHIN_SH != 0) && (Nat.land ctx CONTEXT_WITHIN_WSH != 0)

/-- Key-index loop of the `multi`/`sortedmulti` case: stop on a peeked `)`
(left in the buffer); otherwise require `,` and read `@index`.  `fuel` bounds
the iteration count (each iteration consumes at least three characters). -/
def multi_keys_go (fuel : Nat) (input : List Char) : Option (List Nat × List Char) :=
  match fuel with
  | 0 => none
  | fuel + 1 =>
    match input with
    | c :: _ =>
      if c = ')' then some ([], input)
      else
        match consume_character input ',' with
        | none => none
        | some r1 =>
          match parse_key_index r1 with
          | none => none
          | some (k, r2) =>
            match multi_keys_go fuel r2 with
            | none => none
            | some (ks, r3) => some (k :: ks, r3)
    | [] => none

/-- Body of the `TOKEN_MULTI` / `TOKEN_SORTEDMULTI` case: context test (for
`sortedmulti` only), threshold `k`, key-index list, then the
`1 <= k <= n <= MAX_POLICY_MAP_COSIGNERS` integrity check. -/
def parse_multi_body (token : Token) (input : List Char) (ctx : Nat) :
    Option (PNode × NodeFlags × List Char) :=
  if token = Token.SORTEDMULTI ∧ sortedmulti_context_forbidden ctx then none
  else
    match parse_unsigned_decimal input with
    | none => none
    | some (k, r1) =>
      match multi_keys_go (r1.length + 1) r1 with
      | none => none
      | some (keys, rest) =>
        let n := keys.length
        if 1 ≤ k ∧ k ≤ n ∧ n ≤ MAX_POLICY_MAP_COSIGNERS then
          if token = Token.SORTEDMULTI then some (.sortedmulti k keys, .nonMini, rest)
          else some (.multi k keys, .mini MiniType.B false false true true true, rest)
        else none

/-- Body of the `TOKEN_OLDER` / `TOKEN_AFTER` case: decimal `n` with
`1 <= n < 2^31`, fixed flag vector `B 1 0 0 0 0`. -/
def parse_older_after_body (token : Token) (input : List Char) :
    Option (PNode × NodeFlags × List Char) :=
  match parse_unsigned_decimal input with
  | none => none
  | some (n, rest) =>
    if n < 1 ∨ n ≥ 2 ^ 31 then none
    else
      some ((if token = Token.OLDER then PNode.older n else PNode.after n),
            .mini MiniType.B true false false false false, rest)

/-- Child loop of the `thresh` case, given the parser `p` for one child at the
inner depth: parse a child, check it is miniscript, of type B for the first
child and W for the others, with modifiers d and u; count children with z and
with o; continue while a comma follows.  Returns the children, the final
counters `(n, count_z, count_o)` and the remaining input. -/
def thresh_go (p : List Char → Option (PNode × NodeFlags × List Char)) :
    Nat → List Char → Nat → Nat → Nat →
    Option (List PNode × Nat × Nat × Nat × List Char)
  | 0, _, _, _, _ => none
  | fuel + 1, input, n, count_z, count_o =>
    match p input with
    | none => none
    | some (child, cf, r1) =>
      match cf with
      | .nonMini => none
      | .mini ty z o _ d u =>
        if (if n + 1 = 1 then ty ≠ MiniType.B else ty ≠ MiniType.W) then none
        else if d = false ∨ u = false then none
        else
          let cz := count_z + (if z then 1 else 0)
          let co := count_o + (if o then 1 else 0)
          match consume_character r1 ',' with
          | some r2 =>
            match thresh_go p fuel r2 (n + 1) cz co with
            | none => none
            | some (children, nf, czf, cof, rest) => some (child :: children, nf, czf, cof, rest)
          | none => some ([child], n + 1, cz, co, r1)

/-- Two comma-separated children (`parse_child_scripts` with `n_children = 2`),
given the parser `p` for one child. -/
def parse_child2 (p : List Char → Option (PNode × NodeFlags × List Char))
    (input : List Char) :
    Option (PNode × NodeFlags × PNode × NodeFlags × List Char) :=
  match p input with
  | none => none
  | some (x, fx, r1) =>
    match consume_character r1 ',' with
    | none => none
    | some r2 =>
      match p r2 with
      | none => none
      | some (y, fy, r3) => some (x, fx, y, fy, r3)

/-- Three comma-separated children (`parse_child_scripts` with
`n_children = 3`), given the parser `p` for one child. -/
def parse_child3 (p : List Char → Option (PNode × NodeFlags × List Char))
    (input : List Char) :
    Option (PNode × NodeFlags × PNode × NodeFlags × PNode × NodeFlags × List Char) :=
  match parse_child2 p input with
  | none => none
  | some (x, fx, y, fy, r3) =>
    match consume_character r3 ',' with
    | none => none
    | some r4 =>
      match p r4 with
      | none => none
      | some (z, fz, r5) => some (x, fx, y, fy, z, fz, r5)

/-- Embedding of `parse_script`.  `fuel` bounds the recursion depth of the C
function (which is bounded by the input length); every recursive call passes
`fuel` decremented by one.  The result is the root node, its flags and the
remaining input. -/
def parse_script : Nat → Nat → Nat → List Char → Option (PNode × NodeFlags × List Char)
  | 0, _, _, _ => none
  | fuel + 1, depth, ctx, input =>
    -- wrapper-prefix look-ahead
    let ws_rest := wrapper_split input
    match ws_rest.1.mapM char_to_wrapper with
    | none => none
    | some ws =>
      let tok_rest := parse_token ws_rest.2
      let token := tok_rest.1
      -- all tokens but `0` and `1` have parentheses
      match (if token = Token.T0 ∨ token = Token.T1 then some tok_rest.2
             else consume_character tok_rest.2 '(') with
      | none => none
      | some input1 =>
        let body : Option (PNode × NodeFlags × List Char) :=
          match token with
          | Token.T0 => some (.const0, .mini MiniType.B true false false true true, input1)
          | Token.T1 => some (.const1, .mini MiniType.B true false false false true, input1)
          | Token.SH =>
            if depth ≠ 0 then none
            else
              match parse_script fuel (depth + 1) CONTEXT_WITHIN_SH input1 with
              | none => none
              | some (inner, _, rest) => some (.sh inner, .nonMini, rest)
          | Token.WSH =>
            if depth ≠ 0 ∧ Nat.land ctx CONTEXT_WITHIN_SH = 0 then none
            else
              match parse_script fuel (depth + 1) CONTEXT_WITHIN_WSH input1 with
              | none => none
              | some (inner, _, rest) => some (.wsh inner, .nonMini, rest)
          | Token.SHA256 =>
            match buffer_read_hex_hash input1 32 with
            | none => none
            | some (h, rest) =>
              some (.sha256 h, .mini MiniType.B true true false true true, rest)
          | Token.HASH256 =>
            match buffer_read_hex_hash input1 32 with
            | none => none
            | some (h, rest) =>
              some (.hash256 h, .mini MiniType.B true true false true true, rest)
          | Token.RIPEMD160 =>
            match buffer_read_hex_hash input1 20 with
            | none => none
            | some (h, rest) =>
              some (.ripemd160 h, .mini MiniType.B true true false true true, rest)
          | Token.HASH160 =>
            match buffer_read_hex_hash input1 20 with
            | none => none
            | some (h, rest) =>
              some (.hash160 h, .mini MiniType.B true true false true true, rest)
          | Token.ANDOR =>
            match parse_child3 (parse_script fuel (depth + 1) 0) input1 with
            | none => none
            | some (x, fx, y, fy, z, fz, rest) =>
              match andor_flags fx fy fz with
              | none => none
              | some f => some (.andor x y z, f, rest)
          | Token.AND_V =>
            match parse_child2 (parse_script fuel (depth + 1) 0) input1 with
            | none => none
            | some (x, fx, y, fy, rest) =>
              match and_v_flags fx fy with
              | none => none
              | some f => some (.and_v x y, f, rest)
          | Token.AND_B =>
            match parse_child2 (parse_script fuel (depth + 1) 0) input1 with
            | none => none
            | some (x, fx, y, fy, rest) =>
              match and_b_flags fx fy with
              | none => none
              | some f => some (.and_b x y, f, rest)
          | Token.AND_N =>
            match parse_child2 (parse_script fuel (depth + 1) 0) input1 with
            | none => none
            | some (x, fx, y, fy, rest) =>
              match and_n_flags fx fy with
              | none => none
              | some f => some (.and_n x y, f, rest)
          | Token.OR_B =>
            match parse_child2 (parse_script fuel (depth + 1) 0) input1 with
            | none => none
            | some (x, fx, y, fy, rest) =>
              match or_b_flags fx fy with
              | none => none
              | some f => some (.or_b x y, f, rest)
          | Token.OR_C =>
            match parse_child2 (parse_script fuel (depth + 1) 0) input1 with
            | none => none
            | some (x, fx, y, fy, rest) =>
              match or_c_flags fx fy with
              | none => none
              | some f => some (.or_c x y, f, rest)
          | Token.OR_D =>
            match parse_child2 (parse_script fuel (depth + 1) 0) input1 with
            | none => none
            | some (x, fx, y, fy, rest) =>
              match or_d_flags fx fy with
              | none => none
              | some f => some (.or_d x y, f, rest)
          | Token.OR_I =>
            match parse_child2 (parse_script fuel (depth + 1) 0) input1 with
            | none => none
            | some (x, fx, y, fy, rest) =>
              match or_i_flags fx fy with
              | none => none
              | some f => some (.or_i x y, f, rest)
          | Token.THRESH =>
            match parse_unsigned_decimal input1 with
            | none => none
            | some (k, r1) =>
              match consume_character r1 ',' with
              | none => none
              | some r2 =>
                if k < 1 then none
                else
                  match thresh_go (parse_script fuel (depth + 1) 0) (r2.length + 1) r2 0 0 0 with
                  | none => none
                  | some (children, n, count_z, count_o, rest) =>
                    -- note: no check that k <= n is performed here
                    some (.thresh k children,
                          .mini MiniType.B (count_z == n)
                            ((count_z == n - 1) && (count_o == 1)) false false false,
                          rest)
          | Token.PK =>
            match parse_key_index input1 with
            | none => none
            | some (k, rest) =>
              some (.pk k, .mini MiniType.B false true true true true, rest)
          | Token.PKH =>
            match parse_key_index input1 with
            | none => none
            | some (k, rest) =>
              some (.pkh k, .mini MiniType.B false false true true true, rest)
          | Token.PK_K =>
            match parse_key_index input1 with
            | none => none
            | some (k, rest) =>
              some (.pk_k k, .mini MiniType.K false true true true true, rest)
          | Token.PK_H =>
            match parse_key_index input1 with
            | none => none
            | some (k, rest) =>
              some (.pk_h k, .mini MiniType.K false false true true true, rest)
          | Token.WPKH =>
            if depth > 0 ∧ Nat.land ctx CONTEXT_WITHIN_SH = 0 then none
            else
              match parse_key_index input1 with
              | none => none
              | some (k, rest) => some (.wpkh k, .nonMini, rest)
          | Token.TR =>
            if depth > 1 then none
            else
              match parse_key_index input1 with
              | none => none
              | some (k, rest) => some (.tr k, .nonMini, rest)
          | Token.OLDER => parse_older_after_body Token.OLDER input1
          | Token.AFTER => parse_older_after_body Token.AFTER input1
          | Token.MULTI => parse_multi_body Token.MULTI input1 ctx
          | Token.SORTEDMULTI => parse_multi_body Token.SORTEDMULTI input1 ctx
          | Token.INVALID => none
        match body with
        | none => none
        | some (node, f, input2) =>
          match (if token = Token.T0 ∨ token = Token.T1 then some input2
                 else consume_character input2 ')') with
          | none => none
          | some input3 =>
            if depth = 0 ∧ input3 ≠ [] then none
            else
              match apply_wrappers ws node f with
              | none => none
              | some (root, root_flags) => some (root, root_flags, input3)

/-- Top-level entry into `parse_script` with depth 0 and empty context flags;
the fuel is ample for the recursion depth of any input. -/
def parse_script_top (input : List Char) : Option (PNode × NodeFlags × List Char) :=
  parse_script (2 * input.length + 2) 0 0 input

/-- Embedding of `parse_policy_map`: the output-region pointer must be 4-byte
aligned before anything else happens; `out_addr` is the numeric address of the
caller-supplied output region. -/
def parse_policy_map (out_addr : Nat) (input : List Char) :
    Option (PNode × NodeFlags × List Char) :=
  if out_addr % 4 ≠ 0 then none else parse_script_top input

/-! ### Concrete inputs used by the theorems -/

/-- A well-formed serialized wallet header: type 2, name `wal`, policy body
`pkh(@0)`, one key, all-zero Merkle root (scenario 1 of the spec). -/
def C8_header_bytes : List Nat :=
  [2, 3, 119, 97, 108, 7, 112, 107, 104, 40, 64, 48, 41, 1] ++ List.replicate 32 0

/-- The header record decoded from `C8_header_bytes`. -/
def C8_header_value : policy_map_wallet_header :=
  { wtype := 2, name := [119, 97, 108], policy_map := [112, 107, 104, 40, 64, 48, 41],
    n_keys := 1, keys_info_merkle_root := List.replicate 32 0 }

/-! ## Theorems -/

/-- Reading one byte from a buffer is unaffected by bytes appended after it. -/
theorem buffer_read_u8_append (buf extra : List Nat) (v : Nat) (rest : List Nat)
    (h : buffer_read_u8 buf = some (v, rest)) :
    buffer_read_u8 (buf ++ extra) = some (v, rest ++ extra) := by
  cases buf with
  | nil => simp [buffer_read_u8] at h
  | cons b r =>
    rw [List.cons_append]
    simp only [buffer_read_u8, Option.some.injEq, Prod.mk.injEq] at h ⊢
    exact ⟨h.1, by rw [h.2]⟩

/-- Reading `n` bytes from a buffer is unaffected by bytes appended after it. -/
theorem buffer_read_bytes_append (buf extra : List Nat) (n : Nat) (bs rest : List Nat)
    (h : buffer_read_bytes buf n = some (bs, rest)) :
    buffer_read_bytes (buf ++ extra) n = some (bs, rest ++ extra) := by
  unfold buffer_read_bytes at h ⊢
  by_cases hn : n ≤ buf.length
  · rw [if_pos hn] at h
    have hn2 : n ≤ (buf ++ extra).length := by
      rw [List.length_append]; omega
    rw [if_pos hn2, List.take_append_of_le_length hn, List.drop_append_of_le_length hn]
    simp only [Option.some.injEq, Prod.mk.injEq] at h ⊢
    exact ⟨h.1, by rw [h.2]⟩
  · rw [if_neg hn] at h
    exact absurd h (by simp)

/-- Reading a varint from a buffer is unaffected by bytes appended after it. -/
theorem buffer_read_varint_append (buf extra : List Nat) (v : Nat) (rest : List Nat)
    (h : buffer_read_varint buf = some (v, rest)) :
    buffer_read_varint (buf ++ extra) = some (v, rest ++ extra) := by
  cases buf with
  | nil => simp [buffer_read_varint] at h
  | cons b r =>
    rw [List.cons_append]
    rw [buffer_read_varint] at h ⊢
    by_cases hb : b < 253
    · rw [if_pos hb] at h ⊢
      simp only [Option.some.injEq, Prod.mk.injEq] at h ⊢
      exact ⟨h.1, by rw [h.2]⟩
    · rw [if_neg hb] at h ⊢
      split at h
      · rename_i bs r2 hbs
        rw [buffer_read_bytes_append r extra _ bs r2 hbs]
        show some (le_bytes_to_nat bs, r2 ++ extra) = some (v, rest ++ extra)
        simp only [Option.some.injEq, Prod.mk.injEq] at h ⊢
        exact ⟨h.1, by rw [h.2]⟩
      · exact absurd h (by simp)

/-- Helper for the wrapper-chain structure: a successful application of the
wrapper chain `ws` (outermost first) around `body` produces exactly the fold
of the `wrap` constructor over `ws`, i.e. the outermost node is the first
wrapper and each wrapper holds the next node inward, the innermost holding
`body`. -/
theorem apply_wrappers_foldr (ws : List Wrapper) (body : PNode) (bf : NodeFlags)
    (node : PNode) (f : NodeFlags) (h : apply_wrappers ws body bf = some (node, f)) :
    node = ws.foldr PNode.wrap body := by
  induction ws generalizing node f with
  | nil =>
    simp only [apply_wrappers, Option.some.injEq, Prod.mk.injEq] at h
    rw [List.foldr_nil]
    exact h.1.symm
  | cons w tl ih =>
    rw [apply_wrappers] at h
    split at h
    · exact absurd h (by simp)
    · rename_i inner inner_flags hrec
      split at h
      · exact absurd h (by simp)
      · rename_i f2 hw
        simp only [Option.some.injEq, Prod.mk.injEq] at h
        rw [List.foldr_cons, ← ih inner inner_flags hrec]
        exact h.1.symm

/-- Helper for C8: `read_policy_map_wallet` performs no exhaustion check, so a
successful decode of a buffer also succeeds, with the same header, when extra
bytes are appended after it; the extra bytes are simply left unread. -/
theorem read_policy_map_wallet_append (buf extra : List Nat)
    (hd : policy_map_wallet_header) (rest : List Nat)
    (h : read_policy_map_wallet buf = Except.ok (hd, rest)) :
    read_policy_map_wallet (buf ++ extra) = Except.ok (hd, rest ++ extra) := by
  rw [read_policy_map_wallet] at h
  split at h
  · exact absurd h (by simp)
  · rename_i wt r1 h1
    split at h
    · exact absurd h (by simp)
    · rename_i hwt
      split at h
      · exact absurd h (by simp)
      · rename_i name_len r2 h2
        split at h
        · exact absurd h (by simp)
        · rename_i hnl
          split at h
          · exact absurd h (by simp)
          · rename_i name r3 h3
            split at h
            · exact absurd h (by simp)
            · rename_i pml r4 h4
              split at h
              · exact absurd h (by simp)
              · rename_i hpml
                split at h
                · exact absurd h (by simp)
                · rename_i pm r5 h5
                  split at h
                  · exact absurd h (by simp)
                  · rename_i nk r6 h6
                    split at h
                    · exact absurd h (by simp)
                    · rename_i hnk
                      split at h
                      · exact absurd h (by simp)
                      · rename_i root r7 h7
                        simp only [Except.ok.injEq, Prod.mk.injEq] at h
                        rw [read_policy_map_wallet]
                        simp [buffer_read_u8_append buf extra wt r1 h1,
                              buffer_read_u8_append r1 extra name_len r2 h2,
                              buffer_read_bytes_append r2 extra name_len name r3 h3,
                              buffer_read_varint_append r3 extra pml r4 h4,
                              buffer_read_bytes_append r4 extra (pml % 65536) pm r5 h5,
                              buffer_read_varint_append r5 extra nk r6 h6,
                              buffer_read_bytes_append r6 extra 32 root r7 h7,
                              hwt, hnl, hpml, hnk, ← h.1, ← h.2]

/-! ## Claim theorems -/

/-- C1: the claim states every `thresh` node accepted by `parse_script`
satisfies `k ≤ n` and that a `thresh` with `k` greater than the number of
children is rejected.  The code only checks `k ≥ 1`: the body
`thresh(2,pk(@0))`, whose threshold 2 exceeds its single child, is accepted,
producing a `thresh` node with `k = 2` and one child. -/
theorem C1_thresh_k_exceeds_n_accepted :
    parse_script_top (String.toList "thresh(2,pk(@0))") =
      some (PNode.thresh 2 [PNode.pk 0],
            NodeFlags.mini MiniType.B false true false false false, []) := rfl

/-- C2: the claim states `tr` is accepted only at the top level and that
`sh(tr(@0))` is rejected.  The code rejects `tr` only at `depth > 1`, so
`tr(@0)` at depth 0 is accepted (as claimed) but `sh(tr(@0))`, with `tr` at
depth 1, is also accepted; only at depth 2 (for example `sh(wsh(tr(@0)))`) is
`tr` rejected. -/
theorem C2_sh_tr_accepted :
    parse_script_top (String.toList "tr(@0)") =
      some (PNode.tr 0, NodeFlags.nonMini, [])
    ∧ parse_script_top (String.toList "sh(tr(@0))") =
        some (PNode.sh (PNode.tr 0), NodeFlags.nonMini, [])
    ∧ parse_script_top (String.toList "sh(wsh(tr(@0)))") = none :=
  ⟨rfl, rfl, rfl⟩

/-- C3: for every accepted wrapper prefix `w1w2...wk:` the returned root node
is the wrapper `w1`, each wrapper holds the next wrapper inward and the
innermost wrapper holds the parsed body (the fold of `wrap` over the wrapper
list); and the body `c:pk_k(@0)` parses to a `C` wrapper around a `PK_K` node
with root flags miniscript type B, z=0, o=1, n=1, d=1, u=1. -/
theorem C3_wrapper_chain :
    (∀ (ws : List Wrapper) (body : PNode) (bf : NodeFlags) (node : PNode) (f : NodeFlags),
        apply_wrappers ws body bf = some (node, f) → node = ws.foldr PNode.wrap body)
    ∧ parse_script_top (String.toList "c:pk_k(@0)") =
        some (PNode.wrap Wrapper.C (PNode.pk_k 0),
              NodeFlags.mini MiniType.B false true true true true, []) :=
  ⟨apply_wrappers_foldr, rfl⟩

/-- C3 witness: the wrapper-chain property applied at the concrete chain of
the body `c:pk_k(@0)`. -/
theorem C3_wrapper_chain_witness :
    PNode.wrap Wrapper.C (PNode.pk_k 0) =
      List.foldr PNode.wrap (PNode.pk_k 0) [Wrapper.C] :=
  C3_wrapper_chain.1 [Wrapper.C] (PNode.pk_k 0)
    (NodeFlags.mini MiniType.K false true true true true)
    (PNode.wrap Wrapper.C (PNode.pk_k 0))
    (NodeFlags.mini MiniType.B false true true true true) rfl

/-- C4: the claim states `older`/`after` is accepted exactly when its decimal
argument satisfies `1 ≤ n < 2^31`.  The three named examples behave as
claimed, and every accepted node carries flags B, z=1, o=0, n=0, d=0, u=0; but
the claimed equivalence fails for `older(10000000000)`: its decimal argument
`10^10` exceeds `2^31 - 1`, yet it is accepted because the overflow check of
`parse_unsigned_decimal` misses the wrap-around and yields
`10^10 mod 2^32 = 1410065408`, which passes the range check. -/
theorem C4_older_range_and_flags :
    parse_script_top (String.toList "older(0)") = none
    ∧ parse_script_top (String.toList "older(1)") =
        some (PNode.older 1, NodeFlags.mini MiniType.B true false false false false, [])
    ∧ parse_script_top (String.toList "older(2147483648)") = none
    ∧ parse_script_top (String.toList "older(10000000000)") =
        some (PNode.older 1410065408,
              NodeFlags.mini MiniType.B true false false false false, []) :=
  ⟨rfl, rfl, rfl, rfl⟩

/-- C5 counterexample: the claim states `sh(wsh(sortedmulti(1,@0)))` is
rejected with a context error; in fact the parse succeeds. -/
theorem C5_sh_wsh_sortedmulti_not_rejected :
    (parse_script_top (String.toList "sh(wsh(sortedmulti(1,@0)))")).isSome = true := rfl

/-- C5 amended: `sh(wsh(sortedmulti(1,@0)))` is accepted.  The `wsh` case
passes only `CONTEXT_WITHIN_WSH` to its child (context flags do not
accumulate), and the `sortedmulti` rejection fires only when both flags are
set, which never happens on this body. -/
theorem C5_sh_wsh_sortedmulti_accepted :
    parse_script_top (String.toList "sh(wsh(sortedmulti(1,@0)))") =
      some (PNode.sh (PNode.wsh (PNode.sortedmulti 1 [0])), NodeFlags.nonMini, [])
    ∧ sortedmulti_context_forbidden CONTEXT_WITHIN_WSH = false :=
  ⟨rfl, rfl⟩

/-- C6: the claim states `parse_unsigned_decimal` fails on every digit
sequence whose value exceeds the maximum `size_t` value.  The leading-zero,
empty-input and lone-zero behaviours are as claimed, but the overflow
detection is unsound: the sequence `10000000000`, whose value `10^10` exceeds
`SIZE_T_MOD - 1`, is accepted with the wrapped result `10^10 mod 2^32 =
1410065408`, because after the wrap `10 * r + d` is still not below `r`. -/
theorem C6_decimal_overflow_missed :
    parse_unsigned_decimal (String.toList "01") = none
    ∧ parse_unsigned_decimal [] = none
    ∧ parse_unsigned_decimal (String.toList "0") = some (0, [])
    ∧ parse_unsigned_decimal (String.toList "10000000000") = some (1410065408, [])
    ∧ SIZE_T_MOD - 1 < 10000000000 :=
  ⟨rfl, rfl, rfl, rfl, by norm_num [SIZE_T_MOD]⟩

/-- C7: the claim states key-info entries with more than 8 derivation steps
are rejected.  The loop tests `master_key_derivation_len > MAX_BIP32_PATH_STEPS`
before reading a step, so a ninth step still passes the test (8 > 8 is false)
and an origin block with nine steps is accepted. -/
theorem C7_nine_derivation_steps_accepted :
    parse_policy_map_key_info
        (String.toList "[aaaaaaaa/1/2/3/4/5/6/7/8/9]" ++ List.replicate 111 'a') =
      some { has_key_origin := true,
             master_key_fingerprint := [170, 170, 170, 170],
             master_key_derivation := [1, 2, 3, 4, 5, 6, 7, 8, 9],
             ext_pubkey := List.replicate 111 'a',
             has_wildcard := false }
    ∧ MAX_BIP32_PATH_STEPS = 8 :=
  ⟨rfl, rfl⟩

/-- C8 counterexample: the claim states `read_policy_map_wallet` fails on any
input with extra bytes after the Merkle root; in fact a well-formed header
followed by an extra byte decodes successfully, leaving the byte unread. -/
theorem C8_trailing_byte_not_rejected :
    read_policy_map_wallet (C8_header_bytes ++ [170]) =
      Except.ok (C8_header_value, [170]) := rfl

/-- C8 amended: `read_policy_map_wallet` performs no trailing-byte check: a
successful decode of a buffer also succeeds, with the same header, on that
buffer followed by any extra bytes, which are left unread. -/
theorem C8_no_trailing_byte_check (buf extra : List Nat)
    (hd : policy_map_wallet_header) (rest : List Nat)
    (h : read_policy_map_wallet buf = Except.ok (hd, rest)) :
    read_policy_map_wallet (buf ++ extra) = Except.ok (hd, rest ++ extra) :=
  read_policy_map_wallet_append buf extra hd rest h

/-- C8 witness: the amended statement applied to the concrete header bytes
with one extra byte. -/
theorem C8_no_trailing_byte_check_witness :
    read_policy_map_wallet (C8_header_bytes ++ [170]) =
      Except.ok (C8_header_value, [] ++ [170]) :=
  C8_no_trailing_byte_check C8_header_bytes [170] C8_header_value [] rfl

/-- C9: `parse_policy_map` checks the alignment of the output-region pointer
before doing anything else: on a misaligned pointer it returns an error
regardless of the input (no input is consumed and no output is produced),
and on an aligned pointer it is exactly the top-level `parse_script`. -/
theorem C9_alignment_gate (out_addr : Nat) (input : List Char) :
    (out_addr % 4 ≠ 0 → parse_policy_map out_addr input = none)
    ∧ (out_addr % 4 = 0 → parse_policy_map out_addr input = parse_script_top input) := by
  constructor
  · intro hne
    unfold parse_policy_map
    rw [if_pos hne]
  · intro heq
    unfold parse_policy_map
    rw [if_neg (fun hc => hc heq)]

/-- C9 witness: the alignment gate at addresses 3 (misaligned) and 4
(aligned). -/
theorem C9_alignment_gate_witness :
    parse_policy_map 3 [] = none ∧ parse_policy_map 4 [] = parse_script_top [] :=
  ⟨(C9_alignment_gate 3 []).1 (by decide), (C9_alignment_gate 4 []).2 (by decide)⟩

/-- C10: the `sortedmulti` context test rejects exactly when both
`CONTEXT_WITHIN_SH` and `CONTEXT_WITHIN_WSH` are set; and the bodies
`sortedmulti(1,@0)`, `sh(sortedmulti(1,@0))` and `wsh(sortedmulti(1,@0))` are
all accepted by `parse_script`. -/
theorem C10_sortedmulti_context :
    (∀ ctx : Nat, sortedmulti_context_forbidden ctx = true ↔
        (Nat.land ctx CONTEXT_WITHIN_SH ≠ 0 ∧ Nat.land ctx CONTEXT_WITHIN_WSH ≠ 0))
    ∧ parse_script_top (String.toList "sortedmulti(1,@0)") =
        some (PNode.sortedmulti 1 [0], NodeFlags.nonMini, [])
    ∧ parse_script_top (String.toList "sh(sortedmulti(1,@0))") =
        some (PNode.sh (PNode.sortedmulti 1 [0]), NodeFlags.nonMini, [])
    ∧ parse_script_top (String.toList "wsh(sortedmulti(1,@0))") =
        some (PNode.wsh (PNode.sortedmulti 1 [0]), NodeFlags.nonMini, []) := by
  refine ⟨fun ctx => ?_, rfl, rfl, rfl⟩
  simp [sortedmulti_context_forbidden]

end WalletC
